import Mathlib

/-!
# Cerberus: whitelist bridge between a chat command router and an RCON console

A shallow embedding of `cerberus.go`.  The handlers `messageCreate` and
`retryConnection` are effectful Go functions; here every effect is an explicit
update of a `World` value that carries the two process-wide variables of the
program (`HermesConfig`, `MCClient`) together with chronological traces of what
the program did to the outside: log lines written, RCON commands sent, chat
replies sent and dial attempts made.  What the outside answers (the RCON
server, the RCON dialler, the guild-member lookup) is an arbitrary function
supplied by the caller, so every theorem holds for every behaviour of the
collaborators.
-/

namespace Cerberus

/-! ## Data model -/

/-- The `MinecraftServer` struct: the RCON endpoint. -/
structure MinecraftServer where
  Host : String
  Port : Int
  Password : String

/-- The `Config` struct. -/
structure Config where
  BotToken : String
  MinecraftInfo : MinecraftServer

/-- The three loggers of the program (`InfoLogger`, `WarningLogger`, `ErrorLogger`). -/
inductive Severity where
  | info
  | warning
  | error
deriving DecidableEq, Repr

/-- One line written to the log file: which logger wrote it and the text after the prefix. -/
structure LogEntry where
  severity : Severity
  message : String
deriving DecidableEq, Repr

/-- One `SendCommand` call: the handle it was sent on and the command text. -/
structure RconCall where
  handle : Nat
  command : String
deriving DecidableEq, Repr

/-- A `mcgorcon.Client` value.  `handle` identifies the connection; `answer` is what the
server replies to a command given every command sent so far (`Except.error` is a non-nil
Go `error`). -/
structure Client where
  handle : Nat
  answer : List RconCall → String → Except String String

/-- One `mcgorcon.Dial` call with its three arguments. -/
structure DialCall where
  host : String
  port : Int
  password : String
deriving DecidableEq, Repr

/-- One `ChannelMessageSendReply` call: channel, text, and the message replied to. -/
structure Reply where
  channelID : String
  content : String
  reference : String
deriving DecidableEq, Repr

/-- The part of `discordgo.Member` the program reads. -/
structure Member where
  Roles : List String

/-- The part of `discordgo.User` the program reads. -/
structure User where
  ID : String
  Username : String
  Discriminator : String

/-- The part of `discordgo.MessageCreate` the program reads. -/
structure Event where
  ChannelID : String
  GuildID : String
  MessageID : String
  Author : User

/-- A single parsed token (`dgc.Argument`). -/
structure Argument where
  raw : String

/-- The parsed argument list of an invocation (`dgc.Arguments`). -/
structure Arguments where
  raw : String
  arguments : List Argument

/-- The `Raw` accessor of a token. -/
def Argument.Raw (a : Argument) : String := a.raw

/-- The `Raw` accessor of the whole argument text. -/
def Arguments.Raw (a : Arguments) : String := a.raw

/-- Modelled from the spec: the positional accessor of the router library, which is not
part of the repository; an access past the last token yields the empty token.  The
theorems below only constrain the token it returns. -/
def Arguments.Get (a : Arguments) (n : Nat) : Argument :=
  if a.arguments.length ≤ n then ⟨""⟩ else a.arguments.getD n ⟨""⟩

/-- The `dgc.Ctx` handed to a handler. -/
structure Ctx where
  Arguments : Arguments
  Event : Event

/-- The collaborators reached through the network.  `Dial` may answer differently on each
attempt (it sees the earlier attempts); `GuildMember` returns the Go pair
`(*Member, error)`, either of which may be nil. -/
structure Env where
  Dial : List DialCall → String → Int → String → Except String Client
  GuildMember : String → String → Option Member × Option String

/-- Process-wide variables and the traces of the effects performed so far. -/
structure World where
  HermesConfig : Config
  MCClient : Client
  log : List LogEntry
  rcon : List RconCall
  replies : List Reply
  dials : List DialCall

/-- What a handler run leaves behind: `result` is `Except.error` when the goroutine
panicked, and `world` is the world at that point. -/
structure Outcome where
  result : Except String Unit
  world : World

/-! ## Effects -/

/-- One `Println` on the logger of the given severity. -/
def Println (s : Severity) (msg : String) (w : World) : World :=
  { w with log := w.log ++ [⟨s, msg⟩] }

/-- One `SendCommand` on a client: the call is recorded and the server's answer returned. -/
def Client.SendCommand (c : Client) (cmd : String) (w : World) :
    Except String String × World :=
  (c.answer w.rcon cmd, { w with rcon := w.rcon ++ [⟨c.handle, cmd⟩] })

/-- One `ChannelMessageSendReply` of the session; its return values are discarded by
every caller. -/
def ChannelMessageSendReply (channelID content reference : String) (w : World) : World :=
  { w with replies := w.replies ++ [⟨channelID, content, reference⟩] }

/-- The fixed authorization role of the removal path. -/
def requiredRole : String := "841184009802219520"

/-! ## The program -/

/-- The `contains` loop over a slice. -/
def contains (value : String) : List String → Bool
  | [] => false
  | element :: rest => if element = value then true else contains value rest

/-- The function `addUserToWhitelist`. -/
def addUserToWhitelist (username : String) (client : Client) (w : World) : Bool × World :=
  match client.SendCommand ("whitelist add " ++ username) w with
  | (Except.error _, w1) => (false, Println .error ("Could not add user " ++ username) w1)
  | (Except.ok response, w1) =>
    let w2 := (client.SendCommand "whitelist reload" w1).2
    (true, Println .info ("Response: " ++ response) w2)

/-- The function `removeUserFromWhitelist`. -/
def removeUserFromWhitelist (username : String) (client : Client) (w : World) :
    Bool × World :=
  match client.SendCommand ("whitelist remove " ++ username) w with
  | (Except.error _, w1) => (false, Println .error ("Could not remove user " ++ username) w1)
  | (Except.ok response, w1) =>
    let w2 := (client.SendCommand "whitelist reload" w1).2
    (true, Println .info ("Response: " ++ response) w2)

/-- The function `listUsersInWhitelist`. -/
def listUsersInWhitelist (client : Client) (w : World) : String × World :=
  match client.SendCommand "whitelist list" w with
  | (Except.error _, w1) =>
    ("Error: could not list users.", Println .error "Could not list users" w1)
  | (Except.ok response, w1) => (response, w1)

/-- The handler `messageCreate`: a switch on the first token.  Reading `member.Roles`
through a nil `member` is a run-time panic. -/
def messageCreate (env : Env) (ctx : Ctx) (w : World) : Outcome :=
  let arguments := ctx.Arguments
  let verb := (arguments.Get 0).Raw
  if verb = "add" then
    let username := (arguments.Get 1).Raw
    let w1 := Println .info ("Add User " ++ username ++ " requested by "
      ++ ctx.Event.Author.Username ++ "#" ++ ctx.Event.Author.Discriminator) w
    let r := addUserToWhitelist username w1.MCClient w1
    if !r.1 then
      ⟨.ok (), ChannelMessageSendReply ctx.Event.ChannelID
        ("Could not whitelist " ++ username ++ ". Server appears down.")
        ctx.Event.MessageID r.2⟩
    else
      ⟨.ok (), ChannelMessageSendReply ctx.Event.ChannelID
        ("Whitelisted " ++ username ++ ".") ctx.Event.MessageID r.2⟩
  else if verb = "remove" ∨ verb = "rm" then
    let username := (arguments.Get 1).Raw
    let lookup := env.GuildMember ctx.Event.GuildID ctx.Event.Author.ID
    let w1 := match lookup.2 with
      | some err => Println .error err w
      | none => w
    match lookup.1 with
    | none => ⟨.error "invalid memory address or nil pointer dereference", w1⟩
    | some member =>
      if !contains requiredRole member.Roles then
        ⟨.ok (), ChannelMessageSendReply ctx.Event.ChannelID
          ("You are not allowed to remove " ++ username ++ " from the whitelist.")
          ctx.Event.MessageID w1⟩
      else
        let w2 := Println .info ("Remove User " ++ username ++ " requested by "
          ++ ctx.Event.Author.Username ++ "#" ++ ctx.Event.Author.Discriminator) w1
        let r := removeUserFromWhitelist username w2.MCClient w2
        if !r.1 then
          ⟨.ok (), ChannelMessageSendReply ctx.Event.ChannelID
            ("Could not remove " ++ username ++ " from whitelist. Server appears down.")
            ctx.Event.MessageID r.2⟩
        else
          ⟨.ok (), ChannelMessageSendReply ctx.Event.ChannelID
            ("Removed " ++ username ++ " from whitelist.") ctx.Event.MessageID r.2⟩
  else if verb = "ls" ∨ verb = "list" then
    let w1 := Println .info ("List users requested by "
      ++ ctx.Event.Author.Username ++ "#" ++ ctx.Event.Author.Discriminator) w
    let r := listUsersInWhitelist w1.MCClient w1
    ⟨.ok (), ChannelMessageSendReply ctx.Event.ChannelID r.1 ctx.Event.MessageID r.2⟩
  else
    let w1 := Println .warning ("invalid command" ++ " " ++ arguments.Raw) w
    ⟨.ok (), ChannelMessageSendReply ctx.Event.ChannelID
      "I don't recognize that command!" ctx.Event.MessageID w1⟩

/-- The handler `retryConnection`. -/
def retryConnection (env : Env) (ctx : Ctx) (w : World) : World :=
  let host := w.HermesConfig.MinecraftInfo.Host
  let port := w.HermesConfig.MinecraftInfo.Port
  let password := w.HermesConfig.MinecraftInfo.Password
  let w1 := { w with dials := w.dials ++ [⟨host, port, password⟩] }
  match env.Dial w.dials host port password with
  | Except.error err =>
    let w2 := Println .error ("Could not connect " ++ " " ++ err) w1
    ChannelMessageSendReply ctx.Event.ChannelID "Could not reconnect to server."
      ctx.Event.MessageID w2
  | Except.ok client =>
    let w2 := { w1 with MCClient := client }
    Println .warning "Reconnected to server!" w2

/-! ## Vocabulary of the statements -/

/-- Text `t` occurs inside text `s`. -/
def occursIn (t s : String) : Prop := t.data <:+: s.data

/-- The client answers every command, whatever was sent before, without error. -/
def Client.alwaysAnswers (c : Client) : Prop :=
  ∀ history cmd, ∃ r, c.answer history cmd = Except.ok r

/-- The log lines caused by the member lookup itself: its error, when it returned one. -/
def lookupErrorLog (env : Env) (ctx : Ctx) : List LogEntry :=
  match (env.GuildMember ctx.Event.GuildID ctx.Event.Author.ID).2 with
  | some err => [⟨Severity.error, err⟩]
  | none => []

/-! ## Sample inputs -/

/-- A client on connection `h` that answers every command with a fixed acknowledgement. -/
def upClient (h : Nat) : Client := ⟨h, fun _ cmd => Except.ok ("ok: " ++ cmd)⟩

/-- A client on connection `h` whose every command fails. -/
def downClient (h : Nat) : Client := ⟨h, fun _ _ => Except.error "EOF"⟩

/-- A client on connection `h` that answers everything except `whitelist reload`. -/
def noReloadClient (h : Nat) : Client :=
  ⟨h, fun _ cmd => if cmd = "whitelist reload" then Except.error "EOF" else Except.ok "done"⟩

/-- The example configuration of the specification. -/
def sampleConfig : Config := ⟨"token", ⟨"localhost", 25575, "x"⟩⟩

/-- A fresh world around a given client: nothing logged, sent or dialled yet. -/
def freshWorld (c : Client) : World := ⟨sampleConfig, c, [], [], [], []⟩

/-- An invocation by user `alex#0001` with the given tokens. -/
def sampleCtx (tokens : List String) : Ctx :=
  ⟨⟨" ".intercalate tokens, tokens.map Argument.mk⟩,
   ⟨"chan", "guild", "msg", ⟨"42", "alex", "0001"⟩⟩⟩

/-- An environment where dialling yields `dialled` and the member lookup yields `lookup`. -/
def sampleEnv (dialled : Except String Client) (lookup : Option Member × Option String) :
    Env :=
  ⟨fun _ _ _ _ => dialled, fun _ _ => lookup⟩

/-! ## Auxiliary lemmas -/

theorem contains_eq_true_iff (value : String) (array : List String) :
    contains value array = true ↔ value ∈ array := by
  induction array with
  | nil => simp [contains]
  | cons element rest ih =>
    by_cases h : element = value
    · simp [contains, h]
    · have h2 : ¬ value = element := fun e => h e.symm
      simp [contains, h, h2, ih]

theorem occursIn_middle (a u b : String) : occursIn u (a ++ u ++ b) := by
  unfold occursIn
  refine ⟨a.data, b.data, ?_⟩
  simp [String.data_append]

theorem occursIn_last (a u : String) : occursIn u (a ++ u) := by
  unfold occursIn
  refine ⟨a.data, [], ?_⟩
  simp [String.data_append]

/-- Every RCON call made by one run of `messageCreate` goes to the handle that was active
when the run started. -/
theorem messageCreate_calls_on_active_handle (env : Env) (ctx : Ctx) (w : World) :
    ∃ cmds : List String, (messageCreate env ctx w).world.rcon =
      w.rcon ++ cmds.map (RconCall.mk w.MCClient.handle) := by
  by_cases hadd : (ctx.Arguments.Get 0).Raw = "add"
  · cases h : w.MCClient.answer w.rcon ("whitelist add " ++ (ctx.Arguments.Get 1).Raw)
    · exact ⟨["whitelist add " ++ (ctx.Arguments.Get 1).Raw], by
        simp [messageCreate, hadd, addUserToWhitelist, Client.SendCommand, Println,
          ChannelMessageSendReply, h]⟩
    · exact ⟨["whitelist add " ++ (ctx.Arguments.Get 1).Raw, "whitelist reload"], by
        simp [messageCreate, hadd, addUserToWhitelist, Client.SendCommand, Println,
          ChannelMessageSendReply, h]⟩
  · by_cases hrm : (ctx.Arguments.Get 0).Raw = "remove" ∨ (ctx.Arguments.Get 0).Raw = "rm"
    · cases hm : (env.GuildMember ctx.Event.GuildID ctx.Event.Author.ID).1 with
      | none =>
        exact ⟨[], by
          cases herr : (env.GuildMember ctx.Event.GuildID ctx.Event.Author.ID).2 <;>
            simp [messageCreate, hadd, hrm, hm, herr, Println]⟩
      | some member =>
        cases hc : contains requiredRole member.Roles
        · exact ⟨[], by
            cases herr : (env.GuildMember ctx.Event.GuildID ctx.Event.Author.ID).2 <;>
              simp [messageCreate, hadd, hrm, hm, hc, herr, Println,
                ChannelMessageSendReply]⟩
        · cases h : w.MCClient.answer w.rcon
              ("whitelist remove " ++ (ctx.Arguments.Get 1).Raw)
          · exact ⟨["whitelist remove " ++ (ctx.Arguments.Get 1).Raw], by
              cases herr : (env.GuildMember ctx.Event.GuildID ctx.Event.Author.ID).2 <;>
                simp [messageCreate, hadd, hrm, hm, hc, herr, Println,
                  ChannelMessageSendReply, removeUserFromWhitelist, Client.SendCommand, h]⟩
          · exact ⟨["whitelist remove " ++ (ctx.Arguments.Get 1).Raw, "whitelist reload"], by
              cases herr : (env.GuildMember ctx.Event.GuildID ctx.Event.Author.ID).2 <;>
                simp [messageCreate, hadd, hrm, hm, hc, herr, Println,
                  ChannelMessageSendReply, removeUserFromWhitelist, Client.SendCommand, h]⟩
    · by_cases hls : (ctx.Arguments.Get 0).Raw = "ls" ∨ (ctx.Arguments.Get 0).Raw = "list"
      · exact ⟨["whitelist list"], by
          cases h : w.MCClient.answer w.rcon "whitelist list" <;>
            simp [messageCreate, hadd, hrm, hls, listUsersInWhitelist, Client.SendCommand,
              Println, ChannelMessageSendReply, h]⟩
      · exact ⟨[], by
          simp [messageCreate, hadd, hrm, hls, Println, ChannelMessageSendReply]⟩

/-- The first RCON call of an `add` run is `whitelist add u` on the active handle. -/
theorem messageCreate_add_first_call (env : Env) (ctx : Ctx) (w : World)
    (hverb : (ctx.Arguments.Get 0).Raw = "add") :
    ∃ rest, (messageCreate env ctx w).world.rcon =
      w.rcon ++ ⟨w.MCClient.handle, "whitelist add " ++ (ctx.Arguments.Get 1).Raw⟩ :: rest := by
  cases h : w.MCClient.answer w.rcon ("whitelist add " ++ (ctx.Arguments.Get 1).Raw)
  · exact ⟨[], by
      simp [messageCreate, hverb, addUserToWhitelist, Client.SendCommand, Println,
        ChannelMessageSendReply, h]⟩
  · exact ⟨[⟨w.MCClient.handle, "whitelist reload"⟩], by
      simp [messageCreate, hverb, addUserToWhitelist, Client.SendCommand, Println,
        ChannelMessageSendReply, h]⟩

/-- The first RCON call of an authorized `remove` / `rm` run is `whitelist remove u` on the
active handle. -/
theorem messageCreate_remove_first_call (env : Env) (ctx : Ctx) (w : World) (member : Member)
    (hverb : (ctx.Arguments.Get 0).Raw = "remove" ∨ (ctx.Arguments.Get 0).Raw = "rm")
    (hmember : (env.GuildMember ctx.Event.GuildID ctx.Event.Author.ID).1 = some member)
    (hrole : requiredRole ∈ member.Roles) :
    ∃ rest, (messageCreate env ctx w).world.rcon =
      w.rcon ++
        ⟨w.MCClient.handle, "whitelist remove " ++ (ctx.Arguments.Get 1).Raw⟩ :: rest := by
  have hc : contains requiredRole member.Roles = true :=
    (contains_eq_true_iff _ _).2 hrole
  have hne : (ctx.Arguments.Get 0).Raw ≠ "add" := by
    rcases hverb with h | h <;> rw [h] <;> decide
  cases h : w.MCClient.answer w.rcon ("whitelist remove " ++ (ctx.Arguments.Get 1).Raw)
  · exact ⟨[], by
      cases herr : (env.GuildMember ctx.Event.GuildID ctx.Event.Author.ID).2 <;>
        simp [messageCreate, hne, hverb, hmember, hc, herr, Println,
          ChannelMessageSendReply, removeUserFromWhitelist, Client.SendCommand, h]⟩
  · exact ⟨[⟨w.MCClient.handle, "whitelist reload"⟩], by
      cases herr : (env.GuildMember ctx.Event.GuildID ctx.Event.Author.ID).2 <;>
        simp [messageCreate, hne, hverb, hmember, hc, herr, Println,
          ChannelMessageSendReply, removeUserFromWhitelist, Client.SendCommand, h]⟩

/-- The only RCON call of an `ls` / `list` run is `whitelist list` on the active handle. -/
theorem messageCreate_list_call (env : Env) (ctx : Ctx) (w : World)
    (hverb : (ctx.Arguments.Get 0).Raw = "ls" ∨ (ctx.Arguments.Get 0).Raw = "list") :
    (messageCreate env ctx w).world.rcon =
      w.rcon ++ [⟨w.MCClient.handle, "whitelist list"⟩] := by
  have hne : (ctx.Arguments.Get 0).Raw ≠ "add" := by
    rcases hverb with h | h <;> rw [h] <;> decide
  have hne2 : ¬ ((ctx.Arguments.Get 0).Raw = "remove" ∨ (ctx.Arguments.Get 0).Raw = "rm") := by
    rcases hverb with h | h <;> rw [h] <;> decide
  cases h : w.MCClient.answer w.rcon "whitelist list" <;>
    simp [messageCreate, hne, hne2, hverb, listUsersInWhitelist, Client.SendCommand,
      Println, ChannelMessageSendReply, h]

/-! ## The add path -/

/-- C1: `add u` with an RCON client that answers every command sends exactly
`whitelist add u` and then `whitelist reload` on the active handle, and sends exactly one
reply, `Whitelisted u.`, which contains `u`; the handler returns normally. -/
theorem add_reachable_two_calls_success_reply (env : Env) (ctx : Ctx) (w : World)
    (u : String)
    (hverb : (ctx.Arguments.Get 0).Raw = "add")
    (huser : (ctx.Arguments.Get 1).Raw = u)
    (hup : w.MCClient.alwaysAnswers) :
    (messageCreate env ctx w).result = Except.ok () ∧
    (messageCreate env ctx w).world.rcon =
      w.rcon ++ [⟨w.MCClient.handle, "whitelist add " ++ u⟩,
                 ⟨w.MCClient.handle, "whitelist reload"⟩] ∧
    (messageCreate env ctx w).world.replies =
      w.replies ++ [⟨ctx.Event.ChannelID, "Whitelisted " ++ u ++ ".", ctx.Event.MessageID⟩] ∧
    occursIn u ("Whitelisted " ++ u ++ ".") := by
  obtain ⟨r, hr⟩ := hup w.rcon ("whitelist add " ++ u)
  refine ⟨?_, ?_, ?_, occursIn_middle _ _ _⟩ <;>
    simp [messageCreate, hverb, huser, addUserToWhitelist, Client.SendCommand, Println,
      ChannelMessageSendReply, hr]

theorem add_reachable_two_calls_success_reply_witness :
    (messageCreate (sampleEnv (Except.error "refused") (none, none))
        (sampleCtx ["add", "Steve"]) (freshWorld (upClient 7))).world.rcon =
      [⟨7, "whitelist add Steve"⟩, ⟨7, "whitelist reload"⟩] ∧
    (messageCreate (sampleEnv (Except.error "refused") (none, none))
        (sampleCtx ["add", "Steve"]) (freshWorld (upClient 7))).world.replies =
      [⟨"chan", "Whitelisted Steve.", "msg"⟩] := by
  have h := add_reachable_two_calls_success_reply
    (sampleEnv (Except.error "refused") (none, none))
    (sampleCtx ["add", "Steve"]) (freshWorld (upClient 7)) "Steve"
    (by decide) (by decide) (fun _ cmd => ⟨"ok: " ++ cmd, rfl⟩)
  exact ⟨h.2.1, h.2.2.1⟩

/-- C2: `add u` when the RCON client fails the command attempts exactly one call,
`whitelist add u`, sends no `whitelist reload`, and sends exactly one reply,
`Could not whitelist u. Server appears down.`, which contains `u` and
`Server appears down.`. -/
theorem add_unreachable_one_call_failure_reply (env : Env) (ctx : Ctx) (w : World)
    (u e : String)
    (hverb : (ctx.Arguments.Get 0).Raw = "add")
    (huser : (ctx.Arguments.Get 1).Raw = u)
    (hdown : w.MCClient.answer w.rcon ("whitelist add " ++ u) = Except.error e) :
    (messageCreate env ctx w).result = Except.ok () ∧
    (messageCreate env ctx w).world.rcon =
      w.rcon ++ [⟨w.MCClient.handle, "whitelist add " ++ u⟩] ∧
    (⟨w.MCClient.handle, "whitelist reload"⟩ : RconCall) ∉
      ((messageCreate env ctx w).world.rcon.drop w.rcon.length) ∧
    (messageCreate env ctx w).world.replies =
      w.replies ++ [⟨ctx.Event.ChannelID,
        "Could not whitelist " ++ u ++ ". Server appears down.", ctx.Event.MessageID⟩] ∧
    occursIn u ("Could not whitelist " ++ u ++ ". Server appears down.") ∧
    occursIn "Server appears down." ("Could not whitelist " ++ u ++ ". Server appears down.")
    := by
  have hcalls : (messageCreate env ctx w).world.rcon =
      w.rcon ++ [⟨w.MCClient.handle, "whitelist add " ++ u⟩] := by
    simp [messageCreate, hverb, huser, addUserToWhitelist, Client.SendCommand, Println,
      ChannelMessageSendReply, hdown]
  refine ⟨?_, hcalls, ?_, ?_, occursIn_middle _ _ _, ?_⟩
  · simp [messageCreate, hverb, huser, addUserToWhitelist, Client.SendCommand, Println,
      ChannelMessageSendReply, hdown]
  · rw [hcalls]
    simp only [List.drop_left, List.mem_singleton, RconCall.mk.injEq, true_and]
    intro h
    have hd := congrArg String.data h
    simp only [String.data_append] at hd
    have hchar := congrArg (fun l => l.getD 10 'x') hd
    revert hchar
    simp [List.getD]
  · simp [messageCreate, hverb, huser, addUserToWhitelist, Client.SendCommand, Println,
      ChannelMessageSendReply, hdown]
  · have : "Could not whitelist " ++ u ++ ". Server appears down."
        = ("Could not whitelist " ++ u ++ ". ") ++ "Server appears down." := by
      apply String.ext
      simp [String.data_append]
    rw [this]
    exact occursIn_last _ _

theorem add_unreachable_one_call_failure_reply_witness :
    (messageCreate (sampleEnv (Except.error "refused") (none, none))
        (sampleCtx ["add", "Steve"]) (freshWorld (downClient 7))).world.rcon =
      [⟨7, "whitelist add Steve"⟩] ∧
    (messageCreate (sampleEnv (Except.error "refused") (none, none))
        (sampleCtx ["add", "Steve"]) (freshWorld (downClient 7))).world.replies =
      [⟨"chan", "Could not whitelist Steve. Server appears down.", "msg"⟩] := by
  have h := add_unreachable_one_call_failure_reply
    (sampleEnv (Except.error "refused") (none, none))
    (sampleCtx ["add", "Steve"]) (freshWorld (downClient 7)) "Steve" "EOF"
    (by decide) (by decide) rfl
  exact ⟨h.2.1, h.2.2.2.1⟩

/-! ## The removal path -/

/-- C3: `remove u` or `rm u` by a user whose role list lacks the fixed role
`841184009802219520` issues no RCON call, whatever the client would answer, and sends
exactly one reply, `You are not allowed to remove u from the whitelist.`, which
contains `u`. -/
theorem remove_without_role_denied (env : Env) (ctx : Ctx) (w : World) (u : String)
    (member : Member)
    (hverb : (ctx.Arguments.Get 0).Raw = "remove" ∨ (ctx.Arguments.Get 0).Raw = "rm")
    (huser : (ctx.Arguments.Get 1).Raw = u)
    (hmember : (env.GuildMember ctx.Event.GuildID ctx.Event.Author.ID).1 = some member)
    (hrole : "841184009802219520" ∉ member.Roles) :
    (messageCreate env ctx w).result = Except.ok () ∧
    (messageCreate env ctx w).world.rcon = w.rcon ∧
    (messageCreate env ctx w).world.replies =
      w.replies ++ [⟨ctx.Event.ChannelID,
        "You are not allowed to remove " ++ u ++ " from the whitelist.",
        ctx.Event.MessageID⟩] ∧
    occursIn u ("You are not allowed to remove " ++ u ++ " from the whitelist.") := by
  have hc : contains requiredRole member.Roles = false := by
    rw [Bool.eq_false_iff, Ne, contains_eq_true_iff]
    exact hrole
  have hne : (ctx.Arguments.Get 0).Raw ≠ "add" := by
    rcases hverb with h | h <;> rw [h] <;> decide
  refine ⟨?_, ?_, ?_, occursIn_middle _ _ _⟩ <;>
    cases herr : (env.GuildMember ctx.Event.GuildID ctx.Event.Author.ID).2 <;>
    simp [messageCreate, hne, hverb, huser, hmember, hc, herr, Println,
      ChannelMessageSendReply]

theorem remove_without_role_denied_witness :
    (messageCreate (sampleEnv (Except.error "refused") (some ⟨["1", "2"]⟩, none))
        (sampleCtx ["rm", "Steve"]) (freshWorld (upClient 7))).world.rcon = [] ∧
    (messageCreate (sampleEnv (Except.error "refused") (some ⟨["1", "2"]⟩, none))
        (sampleCtx ["rm", "Steve"]) (freshWorld (upClient 7))).world.replies =
      [⟨"chan", "You are not allowed to remove Steve from the whitelist.", "msg"⟩] := by
  have h := remove_without_role_denied
    (sampleEnv (Except.error "refused") (some ⟨["1", "2"]⟩, none))
    (sampleCtx ["rm", "Steve"]) (freshWorld (upClient 7)) "Steve" ⟨["1", "2"]⟩
    (Or.inr (by decide)) (by decide) rfl (by decide)
  exact ⟨h.2.1, h.2.2.1⟩

/-- C4: `remove u` or `rm u` by a user whose role list contains the fixed role
`841184009802219520`, with an RCON client that answers every command, mirrors the add
success path: exactly `whitelist remove u` then `whitelist reload` are sent, and the
single reply is `Removed u from whitelist.`. -/
theorem remove_with_role_two_calls_success_reply (env : Env) (ctx : Ctx) (w : World)
    (u : String) (member : Member)
    (hverb : (ctx.Arguments.Get 0).Raw = "remove" ∨ (ctx.Arguments.Get 0).Raw = "rm")
    (huser : (ctx.Arguments.Get 1).Raw = u)
    (hmember : (env.GuildMember ctx.Event.GuildID ctx.Event.Author.ID).1 = some member)
    (hrole : "841184009802219520" ∈ member.Roles)
    (hup : w.MCClient.alwaysAnswers) :
    (messageCreate env ctx w).result = Except.ok () ∧
    (messageCreate env ctx w).world.rcon =
      w.rcon ++ [⟨w.MCClient.handle, "whitelist remove " ++ u⟩,
                 ⟨w.MCClient.handle, "whitelist reload"⟩] ∧
    (messageCreate env ctx w).world.replies =
      w.replies ++ [⟨ctx.Event.ChannelID, "Removed " ++ u ++ " from whitelist.",
        ctx.Event.MessageID⟩] := by
  have hc : contains requiredRole member.Roles = true :=
    (contains_eq_true_iff _ _).2 hrole
  have hne : (ctx.Arguments.Get 0).Raw ≠ "add" := by
    rcases hverb with h | h <;> rw [h] <;> decide
  obtain ⟨r, hr⟩ := hup w.rcon ("whitelist remove " ++ u)
  refine ⟨?_, ?_, ?_⟩ <;>
    cases herr : (env.GuildMember ctx.Event.GuildID ctx.Event.Author.ID).2 <;>
    simp [messageCreate, hne, hverb, huser, hmember, hc, herr, Println,
      ChannelMessageSendReply, removeUserFromWhitelist, Client.SendCommand, hr]

theorem remove_with_role_two_calls_success_reply_witness :
    (messageCreate
        (sampleEnv (Except.error "refused") (some ⟨["1", "841184009802219520"]⟩, none))
        (sampleCtx ["remove", "Steve"]) (freshWorld (upClient 7))).world.rcon =
      [⟨7, "whitelist remove Steve"⟩, ⟨7, "whitelist reload"⟩] ∧
    (messageCreate
        (sampleEnv (Except.error "refused") (some ⟨["1", "841184009802219520"]⟩, none))
        (sampleCtx ["remove", "Steve"]) (freshWorld (upClient 7))).world.replies =
      [⟨"chan", "Removed Steve from whitelist.", "msg"⟩] := by
  have h := remove_with_role_two_calls_success_reply
    (sampleEnv (Except.error "refused") (some ⟨["1", "841184009802219520"]⟩, none))
    (sampleCtx ["remove", "Steve"]) (freshWorld (upClient 7)) "Steve"
    ⟨["1", "841184009802219520"]⟩
    (Or.inl (by decide)) (by decide) rfl (by decide) (fun _ cmd => ⟨"ok: " ++ cmd, rfl⟩)
  exact ⟨h.2.1, h.2.2⟩

/-! ## The list path and the default path -/

/-- C5: `listUsersInWhitelist` sends exactly one command, `whitelist list`; when the
client answers `r` the result is `r` unmodified, and when the client fails the result is
`Error: could not list users.`.  `messageCreate` on `ls` or `list` sends that result as
its single reply, and two invocations that differ only in the spelling `ls` / `list`
have the same outcome. -/
theorem list_returns_raw_response_or_fixed_error (env : Env) (ctx ctx2 : Ctx) (w : World)
    (client : Client) :
    (listUsersInWhitelist client w).2.rcon = w.rcon ++ [⟨client.handle, "whitelist list"⟩] ∧
    (∀ r, client.answer w.rcon "whitelist list" = Except.ok r →
      (listUsersInWhitelist client w).1 = r) ∧
    (∀ e, client.answer w.rcon "whitelist list" = Except.error e →
      (listUsersInWhitelist client w).1 = "Error: could not list users.") ∧
    ((ctx.Arguments.Get 0).Raw = "ls" ∨ (ctx.Arguments.Get 0).Raw = "list" →
      (messageCreate env ctx w).result = Except.ok () ∧
      (messageCreate env ctx w).world.rcon =
        w.rcon ++ [⟨w.MCClient.handle, "whitelist list"⟩] ∧
      (messageCreate env ctx w).world.replies =
        w.replies ++ [⟨ctx.Event.ChannelID, (listUsersInWhitelist w.MCClient w).1,
          ctx.Event.MessageID⟩]) ∧
    ((ctx.Arguments.Get 0).Raw = "ls" → (ctx2.Arguments.Get 0).Raw = "list" →
      ctx.Event = ctx2.Event → messageCreate env ctx w = messageCreate env ctx2 w) := by
  refine ⟨?_, ?_, ?_, ?_, ?_⟩
  · cases h : client.answer w.rcon "whitelist list" <;>
      simp [listUsersInWhitelist, Client.SendCommand, Println, h]
  · intro r h
    simp [listUsersInWhitelist, Client.SendCommand, h]
  · intro e h
    simp [listUsersInWhitelist, Client.SendCommand, h]
  · intro hverb
    have hne : (ctx.Arguments.Get 0).Raw ≠ "add" := by
      rcases hverb with h | h <;> rw [h] <;> decide
    have hne2 : ¬ ((ctx.Arguments.Get 0).Raw = "remove" ∨ (ctx.Arguments.Get 0).Raw = "rm") := by
      rcases hverb with h | h <;> rw [h] <;> decide
    refine ⟨?_, ?_, ?_⟩ <;>
      cases h : w.MCClient.answer w.rcon "whitelist list" <;>
      simp [messageCreate, hne, hne2, hverb, listUsersInWhitelist, Client.SendCommand,
        Println, ChannelMessageSendReply, h]
  · intro h1 h2 hev
    simp [messageCreate, h1, h2, hev]

theorem list_returns_raw_response_or_fixed_error_witness :
    (listUsersInWhitelist (upClient 7) (freshWorld (upClient 7))).1 = "ok: whitelist list" ∧
    (listUsersInWhitelist (downClient 7) (freshWorld (downClient 7))).1 =
      "Error: could not list users." ∧
    (messageCreate (sampleEnv (Except.error "refused") (none, none)) (sampleCtx ["ls"])
        (freshWorld (upClient 7))).world.replies = [⟨"chan", "ok: whitelist list", "msg"⟩] ∧
    messageCreate (sampleEnv (Except.error "refused") (none, none)) (sampleCtx ["ls"])
        (freshWorld (upClient 7)) =
      messageCreate (sampleEnv (Except.error "refused") (none, none))
        ⟨(sampleCtx ["list"]).Arguments, (sampleCtx ["ls"]).Event⟩
        (freshWorld (upClient 7)) := by
  have hup := list_returns_raw_response_or_fixed_error
    (sampleEnv (Except.error "refused") (none, none)) (sampleCtx ["ls"])
    ⟨(sampleCtx ["list"]).Arguments, (sampleCtx ["ls"]).Event⟩
    (freshWorld (upClient 7)) (upClient 7)
  have hdown := list_returns_raw_response_or_fixed_error
    (sampleEnv (Except.error "refused") (none, none)) (sampleCtx ["ls"])
    ⟨(sampleCtx ["list"]).Arguments, (sampleCtx ["ls"]).Event⟩
    (freshWorld (downClient 7)) (downClient 7)
  exact ⟨hup.2.1 _ rfl, hdown.2.2.1 "EOF" rfl, (hup.2.2.2.1 (Or.inl (by decide))).2.2,
    hup.2.2.2.2 (by decide) (by decide) rfl⟩

/-- C6: when the first token is none of `add`, `remove`, `rm`, `ls`, `list` (the empty
token of an invocation without arguments included), `messageCreate` issues no RCON call,
sends exactly one reply, `I don't recognize that command!`, and writes exactly one log
entry, on the warning logger. -/
theorem unknown_verb_reply_and_one_warning (env : Env) (ctx : Ctx) (w : World)
    (hadd : (ctx.Arguments.Get 0).Raw ≠ "add")
    (hremove : (ctx.Arguments.Get 0).Raw ≠ "remove")
    (hrm : (ctx.Arguments.Get 0).Raw ≠ "rm")
    (hls : (ctx.Arguments.Get 0).Raw ≠ "ls")
    (hlist : (ctx.Arguments.Get 0).Raw ≠ "list") :
    (messageCreate env ctx w).result = Except.ok () ∧
    (messageCreate env ctx w).world.rcon = w.rcon ∧
    (messageCreate env ctx w).world.replies =
      w.replies ++ [⟨ctx.Event.ChannelID, "I don't recognize that command!",
        ctx.Event.MessageID⟩] ∧
    (messageCreate env ctx w).world.log =
      w.log ++ [⟨Severity.warning, "invalid command" ++ " " ++ ctx.Arguments.Raw⟩] := by
  refine ⟨?_, ?_, ?_, ?_⟩ <;>
    simp [messageCreate, hadd, hremove, hrm, hls, hlist, Println, ChannelMessageSendReply]

theorem unknown_verb_reply_and_one_warning_witness :
    (messageCreate (sampleEnv (Except.error "refused") (none, none)) (sampleCtx ["foo"])
        (freshWorld (upClient 7))).world.log = [⟨Severity.warning, "invalid command foo"⟩] ∧
    (messageCreate (sampleEnv (Except.error "refused") (none, none)) (sampleCtx [])
        (freshWorld (upClient 7))).world.replies =
      [⟨"chan", "I don't recognize that command!", "msg"⟩] := by
  have hfoo := unknown_verb_reply_and_one_warning
    (sampleEnv (Except.error "refused") (none, none)) (sampleCtx ["foo"])
    (freshWorld (upClient 7)) (by decide) (by decide) (by decide) (by decide) (by decide)
  have hnone := unknown_verb_reply_and_one_warning
    (sampleEnv (Except.error "refused") (none, none)) (sampleCtx [])
    (freshWorld (upClient 7)) (by decide) (by decide) (by decide) (by decide) (by decide)
  exact ⟨hfoo.2.2.2, hnone.2.2.1⟩

/-! ## The reload round trip -/

/-- C10: `addUserToWhitelist` and `removeUserFromWhitelist` return `true` exactly when
their first command (`whitelist add u`, resp. `whitelist remove u`) is answered without
error; the answer to the following `whitelist reload` plays no part, so whenever the
first command succeeds (in particular when the reload then fails) `messageCreate` sends
the success reply `Whitelisted u.`, resp. `Removed u from whitelist.`, after having sent
the reload. -/
theorem reload_outcome_ignored (env : Env) (ctx : Ctx) (w : World) (client : Client)
    (u : String) :
    ((addUserToWhitelist u client w).1 = true ↔
      ∃ r, client.answer w.rcon ("whitelist add " ++ u) = Except.ok r) ∧
    ((removeUserFromWhitelist u client w).1 = true ↔
      ∃ r, client.answer w.rcon ("whitelist remove " ++ u) = Except.ok r) ∧
    (∀ r, (ctx.Arguments.Get 0).Raw = "add" → (ctx.Arguments.Get 1).Raw = u →
      w.MCClient.answer w.rcon ("whitelist add " ++ u) = Except.ok r →
      (messageCreate env ctx w).world.rcon =
        w.rcon ++ [⟨w.MCClient.handle, "whitelist add " ++ u⟩,
                   ⟨w.MCClient.handle, "whitelist reload"⟩] ∧
      (messageCreate env ctx w).world.replies =
        w.replies ++ [⟨ctx.Event.ChannelID, "Whitelisted " ++ u ++ ".",
          ctx.Event.MessageID⟩]) ∧
    (∀ r member,
      ((ctx.Arguments.Get 0).Raw = "remove" ∨ (ctx.Arguments.Get 0).Raw = "rm") →
      (ctx.Arguments.Get 1).Raw = u →
      (env.GuildMember ctx.Event.GuildID ctx.Event.Author.ID).1 = some member →
      "841184009802219520" ∈ member.Roles →
      w.MCClient.answer w.rcon ("whitelist remove " ++ u) = Except.ok r →
      (messageCreate env ctx w).world.rcon =
        w.rcon ++ [⟨w.MCClient.handle, "whitelist remove " ++ u⟩,
                   ⟨w.MCClient.handle, "whitelist reload"⟩] ∧
      (messageCreate env ctx w).world.replies =
        w.replies ++ [⟨ctx.Event.ChannelID, "Removed " ++ u ++ " from whitelist.",
          ctx.Event.MessageID⟩]) := by
  refine ⟨?_, ?_, ?_, ?_⟩
  · cases h : client.answer w.rcon ("whitelist add " ++ u) <;>
      simp [addUserToWhitelist, Client.SendCommand, h]
  · cases h : client.answer w.rcon ("whitelist remove " ++ u) <;>
      simp [removeUserFromWhitelist, Client.SendCommand, h]
  · intro r hverb huser hr
    constructor <;>
      simp [messageCreate, hverb, huser, addUserToWhitelist, Client.SendCommand, Println,
        ChannelMessageSendReply, hr]
  · intro r member hverb huser hmember hrole hr
    have hc : contains requiredRole member.Roles = true :=
      (contains_eq_true_iff _ _).2 hrole
    have hne : (ctx.Arguments.Get 0).Raw ≠ "add" := by
      rcases hverb with h | h <;> rw [h] <;> decide
    constructor <;>
      cases herr : (env.GuildMember ctx.Event.GuildID ctx.Event.Author.ID).2 <;>
      simp [messageCreate, hne, hverb, huser, hmember, hc, herr, Println,
        ChannelMessageSendReply, removeUserFromWhitelist, Client.SendCommand, hr]

theorem reload_outcome_ignored_witness :
    (noReloadClient 7).answer [⟨7, "whitelist add Steve"⟩] "whitelist reload" =
      Except.error "EOF" ∧
    (addUserToWhitelist "Steve" (noReloadClient 7) (freshWorld (noReloadClient 7))).1 = true ∧
    (messageCreate (sampleEnv (Except.error "refused") (none, none))
        (sampleCtx ["add", "Steve"]) (freshWorld (noReloadClient 7))).world.replies =
      [⟨"chan", "Whitelisted Steve.", "msg"⟩] ∧
    (messageCreate
        (sampleEnv (Except.error "refused") (some ⟨["841184009802219520"]⟩, none))
        (sampleCtx ["rm", "Steve"]) (freshWorld (noReloadClient 7))).world.replies =
      [⟨"chan", "Removed Steve from whitelist.", "msg"⟩] := by
  have hadd := reload_outcome_ignored (sampleEnv (Except.error "refused") (none, none))
    (sampleCtx ["add", "Steve"]) (freshWorld (noReloadClient 7)) (noReloadClient 7) "Steve"
  have hrm := reload_outcome_ignored
    (sampleEnv (Except.error "refused") (some ⟨["841184009802219520"]⟩, none))
    (sampleCtx ["rm", "Steve"]) (freshWorld (noReloadClient 7)) (noReloadClient 7) "Steve"
  exact ⟨by simp [noReloadClient], hadd.1.2 ⟨"done", by simp [noReloadClient, freshWorld]⟩,
    (hadd.2.2.1 "done" (by decide) (by decide) (by simp [noReloadClient, freshWorld])).2,
    (hrm.2.2.2 "done" ⟨["841184009802219520"]⟩ (Or.inr (by decide)) (by decide) rfl
      (by decide) (by simp [noReloadClient, freshWorld])).2⟩

/-! ## A missing guild member -/

/-- C8, evaluated on the code: on `remove Steve` with a failed member lookup (an error and
a nil member) the handler logs the lookup error and then panics on `member.Roles`; no
reply is sent and no RCON call is made. -/
theorem remove_with_failed_lookup_panics :
    (messageCreate (sampleEnv (Except.error "refused") (none, some "HTTP 404 Not Found"))
        (sampleCtx ["remove", "Steve"]) (freshWorld (upClient 7))).result =
      Except.error "invalid memory address or nil pointer dereference" ∧
    (messageCreate (sampleEnv (Except.error "refused") (none, some "HTTP 404 Not Found"))
        (sampleCtx ["remove", "Steve"]) (freshWorld (upClient 7))).world.log =
      [⟨Severity.error, "HTTP 404 Not Found"⟩] ∧
    (messageCreate (sampleEnv (Except.error "refused") (none, some "HTTP 404 Not Found"))
        (sampleCtx ["remove", "Steve"]) (freshWorld (upClient 7))).world.replies = [] ∧
    (messageCreate (sampleEnv (Except.error "refused") (none, some "HTTP 404 Not Found"))
        (sampleCtx ["remove", "Steve"]) (freshWorld (upClient 7))).world.rcon = [] := by
  refine ⟨rfl, ?_, ?_, ?_⟩ <;> decide

/-! ## Reconnecting -/

/-- C7: `retryConnection` dials the configured host, port and password once.  When the
dial succeeds, `MCClient` becomes the dialled handle and no reply is sent, so that a
following `messageCreate` sends every RCON command to the new handle: `whitelist add u`
first for `add`, `whitelist remove u` first for an authorized `remove` / `rm`, and
`whitelist list` for `ls` / `list`.  When the dial fails, `MCClient` keeps its previous
value and exactly one reply, `Could not reconnect to server.`, is sent. -/
theorem reconnect_replaces_handle_only_on_success (env : Env) (ctx next : Ctx) (w : World) :
    (retryConnection env ctx w).dials =
      w.dials ++ [⟨w.HermesConfig.MinecraftInfo.Host, w.HermesConfig.MinecraftInfo.Port,
        w.HermesConfig.MinecraftInfo.Password⟩] ∧
    (retryConnection env ctx w).rcon = w.rcon ∧
    (∀ client, env.Dial w.dials w.HermesConfig.MinecraftInfo.Host
        w.HermesConfig.MinecraftInfo.Port w.HermesConfig.MinecraftInfo.Password
        = Except.ok client →
      (retryConnection env ctx w).MCClient = client ∧
      (retryConnection env ctx w).replies = w.replies ∧
      (∀ call ∈ (messageCreate env next (retryConnection env ctx w)).world.rcon.drop
          w.rcon.length, call.handle = client.handle) ∧
      ((next.Arguments.Get 0).Raw = "add" →
        ((messageCreate env next (retryConnection env ctx w)).world.rcon.drop
          w.rcon.length).head? =
          some ⟨client.handle, "whitelist add " ++ (next.Arguments.Get 1).Raw⟩) ∧
      (∀ member,
        ((next.Arguments.Get 0).Raw = "remove" ∨ (next.Arguments.Get 0).Raw = "rm") →
        (env.GuildMember next.Event.GuildID next.Event.Author.ID).1 = some member →
        "841184009802219520" ∈ member.Roles →
        ((messageCreate env next (retryConnection env ctx w)).world.rcon.drop
          w.rcon.length).head? =
          some ⟨client.handle, "whitelist remove " ++ (next.Arguments.Get 1).Raw⟩) ∧
      ((next.Arguments.Get 0).Raw = "ls" ∨ (next.Arguments.Get 0).Raw = "list" →
        (messageCreate env next (retryConnection env ctx w)).world.rcon =
          w.rcon ++ [⟨client.handle, "whitelist list"⟩])) ∧
    (∀ e, env.Dial w.dials w.HermesConfig.MinecraftInfo.Host
        w.HermesConfig.MinecraftInfo.Port w.HermesConfig.MinecraftInfo.Password
        = Except.error e →
      (retryConnection env ctx w).MCClient = w.MCClient ∧
      (retryConnection env ctx w).replies =
        w.replies ++ [⟨ctx.Event.ChannelID, "Could not reconnect to server.",
          ctx.Event.MessageID⟩]) := by
  refine ⟨?_, ?_, ?_, ?_⟩
  · cases h : env.Dial w.dials w.HermesConfig.MinecraftInfo.Host
        w.HermesConfig.MinecraftInfo.Port w.HermesConfig.MinecraftInfo.Password <;>
      simp [retryConnection, Println, ChannelMessageSendReply, h]
  · cases h : env.Dial w.dials w.HermesConfig.MinecraftInfo.Host
        w.HermesConfig.MinecraftInfo.Port w.HermesConfig.MinecraftInfo.Password <;>
      simp [retryConnection, Println, ChannelMessageSendReply, h]
  · intro client h
    have hclient : (retryConnection env ctx w).MCClient = client := by
      simp [retryConnection, Println, h]
    have hrcon : (retryConnection env ctx w).rcon = w.rcon := by
      simp [retryConnection, Println, h]
    refine ⟨hclient, ?_, ?_, ?_, ?_, ?_⟩
    · simp [retryConnection, Println, h]
    · obtain ⟨cmds, hc⟩ :=
        messageCreate_calls_on_active_handle env next (retryConnection env ctx w)
      rw [hc, hrcon, hclient, List.drop_left]
      intro call hcall
      obtain ⟨cmd, -, rfl⟩ := List.mem_map.1 hcall
      rfl
    · intro hverb
      obtain ⟨rest, hc⟩ := messageCreate_add_first_call env next (retryConnection env ctx w) hverb
      rw [hc, hrcon, hclient, List.drop_left]
      rfl
    · intro member hverb hmember hrole
      obtain ⟨rest, hc⟩ := messageCreate_remove_first_call env next
        (retryConnection env ctx w) member hverb hmember hrole
      rw [hc, hrcon, hclient, List.drop_left]
      rfl
    · intro hverb
      rw [messageCreate_list_call env next (retryConnection env ctx w) hverb, hrcon, hclient]
  · intro e h
    constructor <;> simp [retryConnection, Println, ChannelMessageSendReply, h]

theorem reconnect_replaces_handle_only_on_success_witness :
    (retryConnection (sampleEnv (Except.ok (upClient 8)) (none, none)) (sampleCtx [])
        (freshWorld (downClient 7))).MCClient = upClient 8 ∧
    (messageCreate (sampleEnv (Except.ok (upClient 8)) (none, none))
        (sampleCtx ["add", "Steve"])
        (retryConnection (sampleEnv (Except.ok (upClient 8)) (none, none)) (sampleCtx [])
          (freshWorld (downClient 7)))).world.rcon.head? =
      some ⟨8, "whitelist add Steve"⟩ ∧
    (retryConnection (sampleEnv (Except.error "refused") (none, none)) (sampleCtx [])
        (freshWorld (downClient 7))).MCClient = downClient 7 ∧
    (retryConnection (sampleEnv (Except.error "refused") (none, none)) (sampleCtx [])
        (freshWorld (downClient 7))).replies =
      [⟨"chan", "Could not reconnect to server.", "msg"⟩] := by
  have hok := reconnect_replaces_handle_only_on_success
    (sampleEnv (Except.ok (upClient 8)) (none, none)) (sampleCtx [])
    (sampleCtx ["add", "Steve"]) (freshWorld (downClient 7))
  have hfail := reconnect_replaces_handle_only_on_success
    (sampleEnv (Except.error "refused") (none, none)) (sampleCtx [])
    (sampleCtx ["add", "Steve"]) (freshWorld (downClient 7))
  exact ⟨(hok.2.2.1 (upClient 8) rfl).1, (hok.2.2.1 (upClient 8) rfl).2.2.2.1 (by decide),
    (hfail.2.2.2 "refused" rfl).1, (hfail.2.2.2 "refused" rfl).2⟩

/-! ## The log trail -/

/-- C9 fails as stated: an unauthorized `rm Steve` (the lookup returns a member without the
role and no error) leaves the log empty, so neither an info nor a warning entry is
written; and an `add Steve` whose `whitelist reload` fails writes two info entries and no
error entry. -/
theorem unauthorized_removal_and_failed_reload_not_logged :
    (messageCreate (sampleEnv (Except.error "refused") (some ⟨["1", "2"]⟩, none))
        (sampleCtx ["rm", "Steve"]) (freshWorld (upClient 7))).world.log = [] ∧
    (noReloadClient 7).answer [⟨7, "whitelist add Steve"⟩] "whitelist reload" =
      Except.error "EOF" ∧
    (messageCreate (sampleEnv (Except.error "refused") (none, none))
        (sampleCtx ["add", "Steve"]) (freshWorld (noReloadClient 7))).world.rcon =
      [⟨7, "whitelist add Steve"⟩, ⟨7, "whitelist reload"⟩] ∧
    (messageCreate (sampleEnv (Except.error "refused") (none, none))
        (sampleCtx ["add", "Steve"]) (freshWorld (noReloadClient 7))).world.log =
      [⟨Severity.info, "Add User Steve requested by alex#0001"⟩,
       ⟨Severity.info, "Response: done"⟩] := by
  refine ⟨by decide, rfl, by decide, by decide⟩

/-- C9, amended: the exact log lines of every path of `messageCreate`.  `add` and
`ls` / `list` always write an info entry naming `Username#Discriminator`; `remove` / `rm`
writes one only when the looked-up member holds the role, and an unauthorized attempt
writes nothing beyond the lookup error, if any; an unrecognized verb writes exactly one
warning entry; a failed first RCON command (`whitelist add`, `whitelist remove`,
`whitelist list`) writes an error entry, while the answer to `whitelist reload` leaves no
trace in the log. -/
theorem log_trail_of_each_path (env : Env) (ctx : Ctx) (w : World) (u who : String)
    (huser : (ctx.Arguments.Get 1).Raw = u)
    (hwho : who = ctx.Event.Author.Username ++ "#" ++ ctx.Event.Author.Discriminator) :
    ((ctx.Arguments.Get 0).Raw = "add" →
      (∀ r, w.MCClient.answer w.rcon ("whitelist add " ++ u) = Except.ok r →
        (messageCreate env ctx w).world.log = w.log ++
          [⟨Severity.info, "Add User " ++ u ++ " requested by " ++ who⟩,
           ⟨Severity.info, "Response: " ++ r⟩]) ∧
      (∀ e, w.MCClient.answer w.rcon ("whitelist add " ++ u) = Except.error e →
        (messageCreate env ctx w).world.log = w.log ++
          [⟨Severity.info, "Add User " ++ u ++ " requested by " ++ who⟩,
           ⟨Severity.error, "Could not add user " ++ u⟩])) ∧
    ((ctx.Arguments.Get 0).Raw = "ls" ∨ (ctx.Arguments.Get 0).Raw = "list" →
      (∀ r, w.MCClient.answer w.rcon "whitelist list" = Except.ok r →
        (messageCreate env ctx w).world.log = w.log ++
          [⟨Severity.info, "List users requested by " ++ who⟩]) ∧
      (∀ e, w.MCClient.answer w.rcon "whitelist list" = Except.error e →
        (messageCreate env ctx w).world.log = w.log ++
          [⟨Severity.info, "List users requested by " ++ who⟩,
           ⟨Severity.error, "Could not list users"⟩])) ∧
    (∀ member, ((ctx.Arguments.Get 0).Raw = "remove" ∨ (ctx.Arguments.Get 0).Raw = "rm") →
      (env.GuildMember ctx.Event.GuildID ctx.Event.Author.ID).1 = some member →
      ("841184009802219520" ∉ member.Roles →
        (messageCreate env ctx w).world.log = w.log ++ lookupErrorLog env ctx) ∧
      ("841184009802219520" ∈ member.Roles →
        (∀ r, w.MCClient.answer w.rcon ("whitelist remove " ++ u) = Except.ok r →
          (messageCreate env ctx w).world.log = w.log ++ lookupErrorLog env ctx ++
            [⟨Severity.info, "Remove User " ++ u ++ " requested by " ++ who⟩,
             ⟨Severity.info, "Response: " ++ r⟩]) ∧
        (∀ e, w.MCClient.answer w.rcon ("whitelist remove " ++ u) = Except.error e →
          (messageCreate env ctx w).world.log = w.log ++ lookupErrorLog env ctx ++
            [⟨Severity.info, "Remove User " ++ u ++ " requested by " ++ who⟩,
             ⟨Severity.error, "Could not remove user " ++ u⟩]))) ∧
    ((ctx.Arguments.Get 0).Raw ≠ "add" → (ctx.Arguments.Get 0).Raw ≠ "remove" →
      (ctx.Arguments.Get 0).Raw ≠ "rm" → (ctx.Arguments.Get 0).Raw ≠ "ls" →
      (ctx.Arguments.Get 0).Raw ≠ "list" →
      (messageCreate env ctx w).world.log =
        w.log ++ [⟨Severity.warning, "invalid command" ++ " " ++ ctx.Arguments.Raw⟩]) := by
  subst hwho
  refine ⟨?_, ?_, ?_, ?_⟩
  · intro hverb
    constructor <;> intro r hr <;>
      simp [messageCreate, hverb, huser, addUserToWhitelist, Client.SendCommand, Println,
        ChannelMessageSendReply, hr, String.append_assoc]
  · intro hverb
    have hne : (ctx.Arguments.Get 0).Raw ≠ "add" := by
      rcases hverb with h | h <;> rw [h] <;> decide
    have hne2 : ¬ ((ctx.Arguments.Get 0).Raw = "remove" ∨ (ctx.Arguments.Get 0).Raw = "rm") := by
      rcases hverb with h | h <;> rw [h] <;> decide
    constructor <;> intro r hr <;>
      simp [messageCreate, hne, hne2, hverb, listUsersInWhitelist, Client.SendCommand,
        Println, ChannelMessageSendReply, hr, String.append_assoc]
  · intro member hverb hmember
    have hne : (ctx.Arguments.Get 0).Raw ≠ "add" := by
      rcases hverb with h | h <;> rw [h] <;> decide
    constructor
    · intro hrole
      have hc : contains requiredRole member.Roles = false := by
        rw [Bool.eq_false_iff, Ne, contains_eq_true_iff]
        exact hrole
      cases herr : (env.GuildMember ctx.Event.GuildID ctx.Event.Author.ID).2 <;>
        simp [messageCreate, hne, hverb, huser, hmember, hc, herr, Println,
          ChannelMessageSendReply, lookupErrorLog]
    · intro hrole
      have hc : contains requiredRole member.Roles = true :=
        (contains_eq_true_iff _ _).2 hrole
      constructor <;> intro r hr <;>
        cases herr : (env.GuildMember ctx.Event.GuildID ctx.Event.Author.ID).2 <;>
        simp [messageCreate, hne, hverb, huser, hmember, hc, herr, Println,
          ChannelMessageSendReply, removeUserFromWhitelist, Client.SendCommand, hr,
          lookupErrorLog, String.append_assoc]
  · intro hadd hremove hrm hls hlist
    simp [messageCreate, hadd, hremove, hrm, hls, hlist, Println, ChannelMessageSendReply]

theorem log_trail_of_each_path_witness :
    (messageCreate (sampleEnv (Except.error "refused") (none, none))
        (sampleCtx ["add", "Steve"]) (freshWorld (downClient 7))).world.log =
      [⟨Severity.info, "Add User Steve requested by alex#0001"⟩,
       ⟨Severity.error, "Could not add user Steve"⟩] ∧
    (messageCreate
        (sampleEnv (Except.error "refused") (some ⟨["1"]⟩, some "HTTP 502 Bad Gateway"))
        (sampleCtx ["remove", "Steve"]) (freshWorld (upClient 7))).world.log =
      [⟨Severity.error, "HTTP 502 Bad Gateway"⟩] := by
  have hadd := log_trail_of_each_path (sampleEnv (Except.error "refused") (none, none))
    (sampleCtx ["add", "Steve"]) (freshWorld (downClient 7)) "Steve" "alex#0001"
    (by decide) (by decide)
  have hrm := log_trail_of_each_path
    (sampleEnv (Except.error "refused") (some ⟨["1"]⟩, some "HTTP 502 Bad Gateway"))
    (sampleCtx ["remove", "Steve"]) (freshWorld (upClient 7)) "Steve" "alex#0001"
    (by decide) (by decide)
  exact ⟨(hadd.1 (by decide)).2 "EOF" rfl,
    (hrm.2.2.1 ⟨["1"]⟩ (Or.inl (by decide)) rfl).1 (by decide)⟩

end Cerberus
